import Mathlib

/-!
Shallow embedding of `src/app.py` (Gradio weather forecast + Hugging Face
summarizer).  Pure functions of the source are translated to Lean functions;
the outcome of each outbound HTTP call is passed in explicitly as an
`Except PyErr _` value (the exception raised, or the decoded JSON body), so
that every code path of the Python functions is a branch of a total Lean
function.  Python floats appearing in the data (temperatures, precipitation)
are modelled as rationals; `int()` conversion is truncation toward zero,
modelled by `Int.tdiv` on numerator and denominator.
-/

/-- A Python exception, identified by its message string (`str(e)`). -/
structure PyErr where
  msg : String
deriving DecidableEq, Repr

/-- A decoded JSON value as produced by `r.json()` (Python `None`, `bool`,
number, `str`, `list`, `dict`).  Numbers are modelled as integers; no claim
inspects a fractional numeric response field.  Object keys are assumed
distinct, as produced by JSON decoding. -/
inductive Json where
  | null : Json
  | bool : Bool → Json
  | num : Int → Json
  | str : String → Json
  | arr : List Json → Json
  | obj : List (String × Json) → Json
deriving Repr

mutual

/-- Python `repr` of a decoded JSON value (used by `str` on containers).
Faithful for strings that contain no quote or escape characters, which is all
the claims exercise. -/
def pyRepr : Json → String
  | Json.null => "None"
  | Json.bool true => "True"
  | Json.bool false => "False"
  | Json.num n => toString n
  | Json.str s => "'" ++ s ++ "'"
  | Json.arr xs => "[" ++ String.intercalate ", " (pyReprList xs) ++ "]"
  | Json.obj kvs => "\x7b" ++ String.intercalate ", " (pyReprPairs kvs) ++ "\x7d"

/-- `repr` of each element of a decoded JSON list. -/
def pyReprList : List Json → List String
  | [] => []
  | j :: js => pyRepr j :: pyReprList js

/-- `repr` of each `key: value` entry of a decoded JSON object. -/
def pyReprPairs : List (String × Json) → List String
  | [] => []
  | (k, v) :: kvs => ("'" ++ k ++ "': " ++ pyRepr v) :: pyReprPairs kvs

end

/-- Python `str` of a decoded JSON value: the string itself for a `str`
value, `repr` otherwise. -/
def pyStr : Json → String
  | Json.str s => s
  | j => pyRepr j

-- -------- Python string primitives ----------
-- A Python `str` is a sequence of code points; the operations below are
-- modelled structurally over `String.data : List Char` so that they are
-- kernel-computable.

/-- Python's default `str.strip()` whitespace test, for the ASCII range
(the claims never strip non-ASCII whitespace). -/
def pyWhitespace (c : Char) : Bool :=
  c = ' ' ∨ c = '\t' ∨ c = '\n' ∨ c = '\r' ∨ c = '\x0b' ∨ c = '\x0c'

/-- Python `s.strip()`: remove leading and trailing whitespace. -/
def py_strip_str (s : String) : String :=
  (((s.data.dropWhile pyWhitespace).reverse.dropWhile pyWhitespace).reverse).asString

/-- Python `s[:n]`: the first `n` code points of `s`. -/
def py_take (n : Nat) (s : String) : String :=
  (s.data.take n).asString

/-- Whether a character list begins with the given needle. -/
def leadsWith : List Char → List Char → Bool
  | _, [] => true
  | [], _ :: _ => false
  | c :: cs, d :: ds => c = d && leadsWith cs ds

/-- Whether a character list contains the needle as a contiguous run
(Python `needle in hay` on strings). -/
def containsSeq : List Char → List Char → Bool
  | [], needle => needle.isEmpty
  | c :: cs, needle => leadsWith (c :: cs) needle || containsSeq cs needle

/-- Truthiness of an optional string (Python: `None` and `""` are falsy). -/
def truthy : Option String → Bool
  | none => false
  | some s => s ≠ ""

/-- Python `a or b` on optional strings: `a` if truthy, else `b`. -/
def py_or (a b : Option String) : Option String :=
  if truthy a then a else b

/-- Python f-string rendering of a value that may be `None`
(`f"{geo.get('name')}"`): `None` renders as `"None"`. -/
def pyOptStr : Option String → String
  | none => "None"
  | some s => s

-- -------- Config (src/app.py lines 24-27) ----------

/-- `GEOCODE_URL` from `src/app.py`. -/
def GEOCODE_URL : String := "https://geocoding-api.open-meteo.com/v1/search"

/-- `FORECAST_URL` from `src/app.py`. -/
def FORECAST_URL : String := "https://api.open-meteo.com/v1/forecast"

/-- `HF_INFERENCE_URL` from `src/app.py` (model id is appended). -/
def HF_INFERENCE_URL : String := "https://api-inference.huggingface.co/models/"

/-- `HF_MODEL` from `src/app.py`. -/
def HF_MODEL : String := "google/flan-t5-small"

-- -------- Weather-code table (src/app.py lines 75-91) ----------

/-- The `_weathercode_to_text` function of `src/app.py`: static mapping from
an integer weather code to a short phrase, checked first-match-wins. -/
def weathercode_to_text (code : Int) : String :=
  if code = 0 then "Clear sky"
  else if code = 1 ∨ code = 2 ∨ code = 3 then "Mainly clear to partly cloudy"
  else if code = 45 ∨ code = 48 then "Fog or depositing rime fog"
  else if code = 51 ∨ code = 53 ∨ code = 55 then "Drizzle"
  else if code = 61 ∨ code = 63 ∨ code = 65 then "Rain"
  else if code = 71 ∨ code = 73 ∨ code = 75 then "Snow"
  else if code = 95 ∨ code = 96 ∨ code = 99 then "Thunderstorms"
  else "Mixed/unknown weather"

-- -------- Dates and `strftime` (src/app.py line 68) ----------

/-- A calendar date, the result of `datetime.datetime.fromisoformat` on the
ISO `YYYY-MM-DD` strings of the forecast's daily `time` series. -/
structure PyDate where
  year : Nat
  month : Nat
  day : Nat
deriving DecidableEq, Repr

/-- Day of the week of a Gregorian date (0 = Sunday), by Sakamoto's method. -/
def dayOfWeek (date : PyDate) : Nat :=
  let t := [0, 3, 2, 5, 0, 3, 5, 1, 4, 6, 2, 4]
  let y := if date.month < 3 then date.year - 1 else date.year
  (y + y / 4 - y / 100 + y / 400 + t.getD (date.month - 1) 0 + date.day) % 7

/-- `strftime("%a %d %b")`: abbreviated weekday, zero-padded day, abbreviated
month (C locale, as used by CPython's default). -/
def strftime_a_d_b (date : PyDate) : String :=
  let wd := ["Sun", "Mon", "Tue", "Wed", "Thu", "Fri", "Sat"].getD (dayOfWeek date) "Sun"
  let mon := ["Jan", "Feb", "Mar", "Apr", "May", "Jun",
              "Jul", "Aug", "Sep", "Oct", "Nov", "Dec"].getD (date.month - 1) "Jan"
  wd ++ " " ++ (if date.day < 10 then "0" ++ toString date.day else toString date.day) ++ " " ++ mon

-- -------- `int()` truncation (src/app.py line 72) ----------

/-- Python `int()` on a numeric value: truncation toward zero.  On a rational
`q` this is the truncating division of numerator by denominator. -/
def pyInt (q : ℚ) : Int :=
  Int.tdiv q.num q.den

-- -------- Forecast data model (src/app.py lines 57-73) ----------

/-- The `daily` object of the Open-Meteo response, as read by
`format_forecast_text` (`daily.get("time", [])` etc.; an absent key is the
empty list). -/
structure DailyJson where
  time : List PyDate
  temperature_2m_max : List ℚ
  temperature_2m_min : List ℚ
  precipitation_sum : List (Option ℚ)
  weathercode : List Int
deriving DecidableEq, Repr

/-- The empty `daily` object (`forecast_json.get("daily", {})` default). -/
def DailyJson.empty : DailyJson :=
  ⟨[], [], [], [], []⟩

/-- The decoded forecast response body.  `daily` is the part the formatter
reads; `rest` carries the remaining top-level fields (`hourly`, timezone
metadata, …) untouched, as raw text. -/
structure ForecastJson where
  daily : Option DailyJson
  rest : List (String × String)
deriving DecidableEq, Repr

/-- The empty dict `{}` returned as auxiliary data on failure paths. -/
def ForecastJson.empty : ForecastJson :=
  ⟨none, []⟩

/-- Python `zip` of five lists: stops at the shortest. -/
def zip5 {α β γ δ ε : Type} :
    List α → List β → List γ → List δ → List ε → List (α × β × γ × δ × ε)
  | a :: as, b :: bs, c :: cs, d :: ds, e :: es => (a, b, c, d, e) :: zip5 as bs cs ds es
  | _, _, _, _, _ => []

/-- Python `sep.join(strs)`. -/
def py_join (sep : String) : List String → String
  | [] => ""
  | [x] => x
  | x :: y :: ys => x ++ sep ++ py_join sep (y :: ys)

/-- One line of the forecast body (`src/app.py` lines 68-72): date via
`strftime("%a %d %b")`, weather-code phrase, `int()`-truncated temperatures,
precipitation note (`"no significant rain"` when the value is absent or
exactly zero). -/
def render_day_line : PyDate × ℚ × ℚ × Option ℚ × Int → String
  | (d, hi, lo, p, wc) =>
    let date := strftime_a_d_b d
    let precip_note :=
      match p with
      | none => "no significant rain"
      | some v => if v = 0 then "no significant rain" else toString v ++ " mm precipitation expected"
    let wc_note := weathercode_to_text wc
    date ++ ": " ++ wc_note ++ ". Temp " ++ toString (pyInt lo) ++ "°C–" ++
      toString (pyInt hi) ++ "°C, " ++ precip_note ++ "."

/-- The per-day lines of `format_forecast_text`: paired iteration over the
five daily series (`for d, hi, lo, p, wc in zip(...)`). -/
def forecast_day_lines (daily : DailyJson) : List String :=
  (zip5 daily.time daily.temperature_2m_max daily.temperature_2m_min
    daily.precipitation_sum daily.weathercode).map render_day_line

/-- `format_forecast_text` from `src/app.py` lines 57-73: header line naming
the place, then one line per day, joined with newlines. -/
def format_forecast_text (place_name : String) (forecast_json : ForecastJson) : String :=
  let daily := forecast_json.daily.getD DailyJson.empty
  py_join "\n" (("Weather forecast for " ++ place_name ++ ":\n") :: forecast_day_lines daily)

-- -------- Geocoding (src/app.py lines 30-38) ----------

/-- One entry of the geocoding response's `results` array, as read by the
orchestrator (`geo.get(...)`; absent keys give `None`). -/
structure GeoResult where
  name : Option String
  country : Option String
  latitude : Option ℚ
  longitude : Option ℚ
deriving DecidableEq, Repr

/-- The decoded geocoding response body; a missing or empty `results` key is
the empty list (both are falsy for `data.get("results")`). -/
structure GeocodeBody where
  results : List GeoResult
deriving DecidableEq, Repr

/-- `geocode_place` from `src/app.py` lines 30-38.  The HTTP GET,
`raise_for_status` and JSON decoding are I/O; their outcome is the `resp`
argument.  Returns the first result, or `none`. -/
def geocode_place (resp : Except PyErr GeocodeBody) : Except PyErr (Option GeoResult) :=
  match resp with
  | Except.error e => Except.error e
  | Except.ok body =>
    match body.results with
    | [] => Except.ok none
    | g :: _ => Except.ok (some g)

-- -------- Forecast fetch (src/app.py lines 40-55) ----------

/-- `fetch_open_meteo` from `src/app.py` lines 40-55.  The date-window
computation and the HTTP GET are I/O; the outcome of the request
(exception, or decoded body) is the `resp` argument, returned unmodified. -/
def fetch_open_meteo (_lat _lon : Option ℚ) (_days : Int)
    (resp : Except PyErr ForecastJson) : Except PyErr ForecastJson :=
  resp

-- -------- Hugging Face summarizer (src/app.py lines 93-120) ----------

/-- Python `"generated_text" in x` on a decoded JSON value: key membership
for a dict (membership = lookup success), substring test for a string,
element membership for a list; a `TypeError` otherwise. -/
def py_contains_generated_text : Json → Except PyErr Bool
  | Json.obj kvs => Except.ok (kvs.find? (fun kv => kv.1 = "generated_text")).isSome
  | Json.str s => Except.ok (containsSeq s.data "generated_text".data)
  | Json.arr xs =>
      Except.ok (xs.any fun j => match j with
        | Json.str s => s = "generated_text"
        | _ => false)
  | Json.num _ => Except.error ⟨"argument of type 'int' is not iterable"⟩
  | Json.bool _ => Except.error ⟨"argument of type 'bool' is not iterable"⟩
  | Json.null => Except.error ⟨"argument of type 'NoneType' is not iterable"⟩

/-- Python `x["generated_text"]` on a decoded JSON value: dict lookup, or a
`TypeError` for the other types. -/
def py_index_generated_text : Json → Except PyErr Json
  | Json.obj kvs =>
      match kvs.find? (fun kv => kv.1 = "generated_text") with
      | some kv => Except.ok kv.2
      | none => Except.error ⟨"'generated_text'"⟩
  | Json.str _ => Except.error ⟨"string indices must be integers"⟩
  | Json.arr _ => Except.error ⟨"list indices must be integers or slices, not str"⟩
  | Json.num _ => Except.error ⟨"'int' object is not subscriptable"⟩
  | Json.bool _ => Except.error ⟨"'bool' object is not subscriptable"⟩
  | Json.null => Except.error ⟨"'NoneType' object is not subscriptable"⟩

/-- Python `x.strip()` on a decoded JSON value: trims a string, raises an
`AttributeError` for the other types. -/
def py_strip : Json → Except PyErr String
  | Json.str s => Except.ok (py_strip_str s)
  | Json.num _ => Except.error ⟨"'int' object has no attribute 'strip'"⟩
  | Json.bool _ => Except.error ⟨"'bool' object has no attribute 'strip'"⟩
  | Json.null => Except.error ⟨"'NoneType' object has no attribute 'strip'"⟩
  | Json.arr _ => Except.error ⟨"'list' object has no attribute 'strip'"⟩
  | Json.obj _ => Except.error ⟨"'dict' object has no attribute 'strip'"⟩

/-- Lines 109-118 of `src/app.py`: inspect the decoded response `data`.  A
normal return (including the "unexpected output" fallback string) is `ok`;
an exception raised during the inspection is `error` (caught by the caller's
`except` clause). -/
def parse_hf_response : Json → Except PyErr String
  | Json.arr (x :: rest) => do
      let cond ← py_contains_generated_text x
      if cond then do
        let v ← py_index_generated_text x
        py_strip v
      else
        Except.ok ("(Summarization produced unexpected output) " ++
          py_take 1000 (pyStr (Json.arr (x :: rest))))
  | Json.str s => Except.ok (py_strip_str s)
  | Json.obj kvs =>
      if (kvs.find? (fun kv => kv.1 = "generated_text")).isSome then do
        let v ← py_index_generated_text (Json.obj kvs)
        py_strip v
      else
        Except.ok ("(Summarization produced unexpected output) " ++
          py_take 1000 (pyStr (Json.obj kvs)))
  | j => Except.ok ("(Summarization produced unexpected output) " ++ py_take 1000 (pyStr j))

/-- The prompt built by `hf_summarize` (`src/app.py` line 103). -/
def hf_prompt (text : String) : String :=
  "Summarize the following weather report in a short, user-friendly paragraph:\n\n" ++ text

/-- `hf_summarize` from `src/app.py` lines 93-120.  `hf_token` is the
keyword argument, `env_token` the value of `os.environ.get("HF_API_TOKEN")`;
`resp` is the outcome of the POST + `raise_for_status` + `r.json()` chain.
Always returns a string: every exception (from the request or from the
response inspection) is converted to the failure fallback. -/
def hf_summarize (text : String) (_model : String) (hf_token : Option String)
    (env_token : Option String) (resp : Except PyErr Json) : String :=
  let token := py_or hf_token env_token
  if ¬ truthy token then
    "(Hugging Face token not provided; summarization skipped)\n\n" ++ py_take 2000 text
  else
    match resp with
    | Except.error e =>
        "(Hugging Face summarization failed: " ++ e.msg ++ ")\n\n" ++ py_take 2000 text
    | Except.ok data =>
      match parse_hf_response data with
      | Except.ok s => s
      | Except.error e =>
          "(Hugging Face summarization failed: " ++ e.msg ++ ")\n\n" ++ py_take 2000 text

-- -------- Orchestrator (src/app.py lines 123-160) ----------

/-- The environment of one `get_forecast_for_place` call: the value of the
`HF_API_TOKEN` environment variable, and the behavior of each of the three
outbound HTTP calls for this request. -/
structure WebEnv where
  hf_api_token : Option String
  geocode_resp : Except PyErr GeocodeBody
  forecast_resp : Except PyErr ForecastJson
  hf_resp : Except PyErr Json

/-- `get_forecast_for_place` from `src/app.py` lines 123-160: validate input,
geocode, fetch the forecast, format, optionally summarize; returns the text
and the raw forecast structure (the empty dict on failure paths). -/
def get_forecast_for_place (env : WebEnv) (place : String) (days : Int)
    (use_hf : Bool) : String × ForecastJson :=
  let place := py_strip_str place
  if place = "" then
    ("Please enter a location (e.g., 'Rahim Yar Khan, Pakistan').", ForecastJson.empty)
  else
    match geocode_place env.geocode_resp with
    | Except.error e => ("Error during geocoding: " ++ e.msg, ForecastJson.empty)
    | Except.ok none => ("Location not found: " ++ place, ForecastJson.empty)
    | Except.ok (some geo) =>
      let name := pyOptStr geo.name ++ ", " ++ pyOptStr geo.country
      match fetch_open_meteo geo.latitude geo.longitude days env.forecast_resp with
      | Except.error e =>
          ("Error fetching forecast for " ++ name ++ ": " ++ e.msg, ForecastJson.empty)
      | Except.ok forecast =>
        let raw_text_summary := format_forecast_text name forecast
        let hf_token := env.hf_api_token
        let summary :=
          if use_hf && truthy hf_token then
            hf_summarize raw_text_summary HF_MODEL hf_token env.hf_api_token env.hf_resp
          else if use_hf && !truthy hf_token then
            "(HF token not set — set HF_API_TOKEN to enable model summarization)\n\n" ++
              raw_text_summary
          else
            raw_text_summary
        (summary, forecast)

-- -------- Concrete sample data ----------

/-- A `daily` object with 5 dates but only 3 temperature-max entries. -/
def c4_daily : DailyJson :=
  { time := [⟨2026, 10, 12⟩, ⟨2026, 10, 13⟩, ⟨2026, 10, 14⟩, ⟨2026, 10, 15⟩, ⟨2026, 10, 16⟩]
    temperature_2m_max := [30, 31, 29]
    temperature_2m_min := [20, 21, 19, 18, 17]
    precipitation_sum := [none, some 0, some 2, none, none]
    weathercode := [0, 2, 61, 3, 1] }

/-- A geocoding result for Lahore. -/
def sampleGeo : GeoResult :=
  { name := some "Lahore", country := some "Pakistan", latitude := some 31, longitude := some 74 }

/-- A three-day forecast body. -/
def sampleDaily : DailyJson :=
  { time := [⟨2026, 10, 12⟩, ⟨2026, 10, 13⟩, ⟨2026, 10, 14⟩]
    temperature_2m_max := [30, 31, 29]
    temperature_2m_min := [20, 21, 19]
    precipitation_sum := [none, some 0, some 2]
    weathercode := [0, 2, 61] }

/-- A forecast response carrying `sampleDaily` plus an untouched extra field. -/
def sampleForecast : ForecastJson :=
  { daily := some sampleDaily, rest := [("timezone", "Asia/Karachi")] }

/-- An environment whose three endpoints all behave normally. -/
def successEnv : WebEnv :=
  { hf_api_token := some "hf_tok"
    geocode_resp := Except.ok ⟨[sampleGeo]⟩
    forecast_resp := Except.ok sampleForecast
    hf_resp := Except.ok (Json.str "Sunny week ahead.") }

/-- An environment where the summarization endpoint returns whitespace-only
generated text. -/
def emptyGenEnv : WebEnv :=
  { hf_api_token := some "hf_tok"
    geocode_resp := Except.ok ⟨[sampleGeo]⟩
    forecast_resp := Except.ok sampleForecast
    hf_resp := Except.ok (Json.str "  ") }


-- -------- Helper lemmas ----------

/-- `zip` of five lists stops at the shortest. -/
lemma zip5_length {α β γ δ ε : Type} (as : List α) (bs : List β) (cs : List γ)
    (ds : List δ) (es : List ε) :
    (zip5 as bs cs ds es).length =
      min as.length (min bs.length (min cs.length (min ds.length es.length))) := by
  induction as generalizing bs cs ds es with
  | nil => simp [zip5]
  | cons a as ih =>
    cases bs with
    | nil => simp [zip5]
    | cons b bs =>
      cases cs with
      | nil => simp [zip5]
      | cons c cs =>
        cases ds with
        | nil => simp [zip5]
        | cons d ds =>
          cases es with
          | nil => simp [zip5]
          | cons e es =>
            simp [zip5, ih]
            omega

/-- `pyInt` on a nonnegative rational is the floor. -/
lemma pyInt_of_nonneg (q : ℚ) (h : 0 ≤ q) : pyInt q = ⌊q⌋ := by
  unfold pyInt
  rw [Int.tdiv_eq_ediv (Rat.num_nonneg.mpr h) (by exact_mod_cast Nat.zero_le q.den)]
  exact (Rat.floor_def).symm

/-- `pyInt` on a negative rational is the ceiling. -/
lemma pyInt_of_neg (q : ℚ) (h : q < 0) : pyInt q = ⌈q⌉ := by
  unfold pyInt
  have h1 : q.num.tdiv q.den = -((-q.num).tdiv q.den) := by
    rw [Int.neg_tdiv, Int.neg_neg]
  rw [h1, show (-q.num) = (-q).num from (Rat.neg_num q).symm,
    show (q.den : Int) = ((-q).den : Int) by rw [Rat.neg_den]]
  rw [Int.tdiv_eq_ediv (Rat.num_nonneg.mpr (by linarith)) (by exact_mod_cast Nat.zero_le (-q).den)]
  rw [← Rat.floor_def, Int.floor_neg, Int.neg_neg]

-- -------- Claim theorems ----------

/-- C3: for every integer weather code, `_weathercode_to_text` returns
exactly the phrase of the bucket containing the code per the fixed table
(0 → Clear sky; 1,2,3 → Mainly clear to partly cloudy; 45,48 → Fog or
depositing rime fog; 51,53,55 → Drizzle; 61,63,65 → Rain; 71,73,75 → Snow;
95,96,99 → Thunderstorms), and for every code not listed it returns
"Mixed/unknown weather". -/
theorem weathercode_table_matches_spec :
    (weathercode_to_text 0 = "Clear sky" ∧
     weathercode_to_text 1 = "Mainly clear to partly cloudy" ∧
     weathercode_to_text 2 = "Mainly clear to partly cloudy" ∧
     weathercode_to_text 3 = "Mainly clear to partly cloudy" ∧
     weathercode_to_text 45 = "Fog or depositing rime fog" ∧
     weathercode_to_text 48 = "Fog or depositing rime fog" ∧
     weathercode_to_text 51 = "Drizzle" ∧
     weathercode_to_text 53 = "Drizzle" ∧
     weathercode_to_text 55 = "Drizzle" ∧
     weathercode_to_text 61 = "Rain" ∧
     weathercode_to_text 63 = "Rain" ∧
     weathercode_to_text 65 = "Rain" ∧
     weathercode_to_text 71 = "Snow" ∧
     weathercode_to_text 73 = "Snow" ∧
     weathercode_to_text 75 = "Snow" ∧
     weathercode_to_text 95 = "Thunderstorms" ∧
     weathercode_to_text 96 = "Thunderstorms" ∧
     weathercode_to_text 99 = "Thunderstorms") ∧
    ∀ code : Int,
      code ∉ ([0, 1, 2, 3, 45, 48, 51, 53, 55, 61, 63, 65,
               71, 73, 75, 95, 96, 99] : List Int) →
      weathercode_to_text code = "Mixed/unknown weather" := by
  refine ⟨by decide, ?_⟩
  intro code h
  simp only [List.mem_cons, List.not_mem_nil, or_false, not_or] at h
  obtain ⟨h0, h1, h2, h3, h45, h48, h51, h53, h55, h61,
    h63, h65, h71, h73, h75, h95, h96, h99⟩ := h
  simp [weathercode_to_text, h0, h1, h2, h3, h45, h48, h51, h53, h55, h61,
    h63, h65, h71, h73, h75, h95, h96, h99]

/-- Witness for C3: the unlisted code 200 maps to "Mixed/unknown weather". -/
theorem weathercode_table_matches_spec_witness :
    (200 : Int) ∉ ([0, 1, 2, 3, 45, 48, 51, 53, 55, 61, 63, 65,
                    71, 73, 75, 95, 96, 99] : List Int) ∧
    weathercode_to_text 200 = "Mixed/unknown weather" :=
  ⟨by decide, weathercode_table_matches_spec.2 200 (by decide)⟩

/-- C4: the formatter renders one line per index present in all five daily
series (paired iteration stops at the shortest series); in particular a
`daily` object with 5 dates but 3 temperature-max entries yields exactly 3
day lines. -/
theorem formatter_stops_at_shortest :
    (∀ daily : DailyJson,
      (forecast_day_lines daily).length =
        min daily.time.length (min daily.temperature_2m_max.length
          (min daily.temperature_2m_min.length
            (min daily.precipitation_sum.length daily.weathercode.length)))) ∧
    (forecast_day_lines c4_daily).length = 3 := by
  constructor
  · intro daily
    unfold forecast_day_lines
    rw [List.length_map]
    exact zip5_length _ _ _ _ _
  · rfl

/-- C7: every temperature integer shown by the formatter's day line is
`pyInt` of the rational value, and `pyInt` is truncation toward zero: it
differs from the value by less than one, never exceeds it in absolute value,
and keeps its sign; 21.9 renders as 21 (not the rounded 22) and -0.5 as 0. -/
theorem rendered_temperatures_truncate_toward_zero :
    (∀ (d : PyDate) (hi lo : ℚ) (p : Option ℚ) (wc : Int),
      render_day_line (d, hi, lo, p, wc) =
        strftime_a_d_b d ++ ": " ++ weathercode_to_text wc ++ ". Temp " ++
          toString (pyInt lo) ++ "°C–" ++ toString (pyInt hi) ++ "°C, " ++
          (match p with
           | none => "no significant rain"
           | some v => if v = 0 then "no significant rain"
                       else toString v ++ " mm precipitation expected") ++ ".") ∧
    (∀ q : ℚ, |q - (pyInt q : ℚ)| < 1 ∧ |(pyInt q : ℚ)| ≤ |q| ∧
      (0 ≤ q → 0 ≤ pyInt q) ∧ (q ≤ 0 → pyInt q ≤ 0)) ∧
    pyInt (mkRat 219 10) = 21 ∧ pyInt (mkRat (-1) 2) = 0 ∧
    pyInt (mkRat 219 10) ≠ 22 := by
  refine ⟨fun d hi lo p wc => rfl, fun q => ?_, by decide, by decide, by decide⟩
  rcases lt_or_le q 0 with hneg | hpos
  · rw [pyInt_of_neg q hneg]
    have hc1 : q ≤ (⌈q⌉ : ℚ) := Int.le_ceil q
    have hc2 : (⌈q⌉ : ℚ) < q + 1 := Int.ceil_lt_add_one q
    have hcz : (⌈q⌉ : Int) ≤ 0 := Int.ceil_le.mpr (by exact_mod_cast hneg.le)
    have hc0 : ((⌈q⌉ : Int) : ℚ) ≤ 0 := by exact_mod_cast hcz
    refine ⟨?_, ?_, ?_, ?_⟩
    · rw [abs_of_nonpos (by linarith)]
      linarith
    · rw [abs_of_nonpos hc0, abs_of_nonpos hneg.le]
      linarith
    · intro h0
      exact absurd h0 (not_le.mpr hneg)
    · intro _
      exact hcz
  · rw [pyInt_of_nonneg q hpos]
    have hf1 : ((⌊q⌋ : Int) : ℚ) ≤ q := Int.floor_le q
    have hf2 : q < (⌊q⌋ : ℚ) + 1 := Int.lt_floor_add_one q
    have hf0 : (0 : ℚ) ≤ ((⌊q⌋ : Int) : ℚ) := by
      exact_mod_cast Int.floor_nonneg.mpr hpos
    refine ⟨?_, ?_, ?_, ?_⟩
    · rw [abs_of_nonneg (by linarith)]
      linarith
    · rw [abs_of_nonneg hf0, abs_of_nonneg hpos]
      linarith
    · intro _
      exact Int.floor_nonneg.mpr hpos
    · intro h0
      have : q = 0 := le_antisymm h0 hpos
      simp [this]

/-- Witness for C7: at 21.9 the truncation is nonnegative as the theorem
states for nonnegative inputs. -/
theorem rendered_temperatures_truncate_toward_zero_witness :
    (0 : ℚ) ≤ mkRat 219 10 ∧ 0 ≤ pyInt (mkRat 219 10) :=
  ⟨by decide,
   (rendered_temperatures_truncate_toward_zero.2.1 (mkRat 219 10)).2.2.1 (by decide)⟩

/-- C1: the summarizer is a total function into strings — for every input,
credential and endpoint behavior it returns a string — and whenever the call
raises (timeout, HTTP error, malformed body) with a credential present, the
return value is the fallback containing the error message followed by the
input truncated to 2000 characters. -/
theorem hf_summarize_total_and_exception_fallback :
    (∀ (text model : String) (ht et : Option String) (resp : Except PyErr Json),
      ∃ s : String, hf_summarize text model ht et resp = s) ∧
    (∀ (text model : String) (ht et : Option String) (e : PyErr),
      truthy (py_or ht et) = true →
      hf_summarize text model ht et (Except.error e) =
        "(Hugging Face summarization failed: " ++ e.msg ++ ")\n\n" ++ py_take 2000 text) := by
  refine ⟨fun text model ht et resp => ⟨_, rfl⟩, fun text model ht et e h => ?_⟩
  unfold hf_summarize
  simp [h]

/-- Witness for C1: a timeout with a credential present yields the failure
fallback containing the message and the input. -/
theorem hf_summarize_total_and_exception_fallback_witness :
    truthy (py_or (some "tok") none) = true ∧
    hf_summarize "abc" HF_MODEL (some "tok") none (Except.error ⟨"timeout"⟩) =
      "(Hugging Face summarization failed: timeout)\n\nabc" :=
  ⟨by decide,
   hf_summarize_total_and_exception_fallback.2 "abc" HF_MODEL (some "tok") none
     ⟨"timeout"⟩ (by decide)⟩

/-- C5 counterexample: with no credential the summarizer's notice reads
"(Hugging Face token not provided; summarization skipped)", so the output
does not begin with the prefix "(token not provided; summarization skipped)"
stated by the claim. -/
theorem skip_notice_wording_counterexample :
    hf_summarize "hello" HF_MODEL none none (Except.ok Json.null) =
      "(Hugging Face token not provided; summarization skipped)\n\nhello" ∧
    leadsWith (hf_summarize "hello" HF_MODEL none none (Except.ok Json.null)).data
      "(token not provided; summarization skipped)".data = false :=
  ⟨rfl, by decide⟩

/-- C5 amended: when no credential is available (argument and environment
token both falsy) the summarizer returns, for every endpoint behavior, the
fixed prefix "(Hugging Face token not provided; summarization skipped)"
followed by a blank line and the input truncated to 2000 characters. -/
theorem skip_notice_amended :
    ∀ (text model : String) (ht et : Option String) (resp : Except PyErr Json),
      truthy ht = false → truthy et = false →
      hf_summarize text model ht et resp =
        "(Hugging Face token not provided; summarization skipped)\n\n" ++ py_take 2000 text := by
  intro text model ht et resp h1 h2
  unfold hf_summarize
  simp [py_or, h1, h2]

/-- Witness for C5: with both tokens absent the notice plus input text is
returned. -/
theorem skip_notice_amended_witness :
    truthy (none : Option String) = false ∧
    hf_summarize "hi" HF_MODEL none none (Except.ok Json.null) =
      "(Hugging Face token not provided; summarization skipped)\n\nhi" :=
  ⟨by decide,
   skip_notice_amended "hi" HF_MODEL none none (Except.ok Json.null) (by decide) (by decide)⟩

/-- C6 counterexample: for the response `[5]` — not one of the three accepted
shapes — the code raises a `TypeError` while inspecting `data[0]`, and the
caught exception produces the failure fallback (error message plus input),
which does not embed the stringified response "[5]" at all. -/
theorem parse_shape_counterexample :
    hf_summarize "t" HF_MODEL (some "k") none (Except.ok (Json.arr [Json.num 5])) =
      "(Hugging Face summarization failed: argument of type 'int' is not iterable)\n\nt" ∧
    containsSeq (hf_summarize "t" HF_MODEL (some "k") none
        (Except.ok (Json.arr [Json.num 5]))).data
      (pyStr (Json.arr [Json.num 5])).data = false :=
  ⟨rfl, by decide⟩

/-- C6 amended: the parsing accepts a sequence whose first element is an
object with a "generated_text" string field, an object with such a field, or
a bare string, returning the text stripped of surrounding whitespace
({"generated_text": "X"} yields "X" exactly); any other shape whose
inspection raises no exception (number, empty sequence, object without the
field) yields the fallback embedding the stringified response truncated to
1000 characters; a shape whose inspection raises (e.g. a sequence whose
first element is a number) yields the error fallback instead; an `ok` parse
is returned by the summarizer verbatim. -/
theorem parse_shapes_amended :
    (∀ (kvs : List (String × Json)) (s : String) (rest : List Json),
      kvs.find? (fun kv => kv.1 = "generated_text") = some ("generated_text", Json.str s) →
      parse_hf_response (Json.arr (Json.obj kvs :: rest)) = Except.ok (py_strip_str s)) ∧
    (∀ (kvs : List (String × Json)) (s : String),
      kvs.find? (fun kv => kv.1 = "generated_text") = some ("generated_text", Json.str s) →
      parse_hf_response (Json.obj kvs) = Except.ok (py_strip_str s)) ∧
    (∀ s : String, parse_hf_response (Json.str s) = Except.ok (py_strip_str s)) ∧
    parse_hf_response (Json.obj [("generated_text", Json.str "X")]) = Except.ok "X" ∧
    (∀ n : Int, parse_hf_response (Json.num n) =
      Except.ok ("(Summarization produced unexpected output) " ++
        py_take 1000 (pyStr (Json.num n)))) ∧
    parse_hf_response (Json.arr []) =
      Except.ok ("(Summarization produced unexpected output) " ++
        py_take 1000 (pyStr (Json.arr []))) ∧
    (∀ kvs : List (String × Json),
      (kvs.find? (fun kv => kv.1 = "generated_text")).isSome = false →
      parse_hf_response (Json.obj kvs) =
        Except.ok ("(Summarization produced unexpected output) " ++
          py_take 1000 (pyStr (Json.obj kvs)))) ∧
    (∀ (n : Int) (rest : List Json), parse_hf_response (Json.arr (Json.num n :: rest)) =
      Except.error ⟨"argument of type 'int' is not iterable"⟩) ∧
    (∀ (text : String) (ht et : Option String) (data : Json) (s : String),
      truthy (py_or ht et) = true → parse_hf_response data = Except.ok s →
      hf_summarize text HF_MODEL ht et (Except.ok data) = s) := by
  refine ⟨?_, ?_, fun s => rfl, rfl, fun n => rfl, rfl, ?_, fun n rest => rfl, ?_⟩
  · intro kvs s rest h
    simp [parse_hf_response, py_contains_generated_text, py_index_generated_text, py_strip,
      h, bind, Except.bind]
  · intro kvs s h
    simp [parse_hf_response, py_index_generated_text, py_strip, h, bind, Except.bind]
  · intro kvs h
    simp [parse_hf_response, h]
  · intro text ht et data s h1 h2
    unfold hf_summarize
    simp [h1, h2]

/-- Witness for C6: a singleton object with whitespace-padded generated text
parses to the stripped text, and the summarizer returns it verbatim. -/
theorem parse_shapes_amended_witness :
    ([("generated_text", Json.str " X ")].find? (fun kv => kv.1 = "generated_text") =
      some ("generated_text", Json.str " X ")) ∧
    parse_hf_response (Json.obj [("generated_text", Json.str " X ")]) = Except.ok "X" ∧
    hf_summarize "report" HF_MODEL (some "k") none
      (Except.ok (Json.obj [("generated_text", Json.str " X ")])) = "X" :=
  ⟨rfl,
   parse_shapes_amended.2.1 [("generated_text", Json.str " X ")] " X " rfl,
   parse_shapes_amended.2.2.2.2.2.2.2.2 "report" (some "k") none
     (Json.obj [("generated_text", Json.str " X ")]) "X" (by decide) (by rfl)⟩

/-- A string append with a nonempty left part is nonempty. -/
lemma append_ne_empty_of_left (s t : String) (h : s ≠ "") : s ++ t ≠ "" := by
  intro hc
  apply h
  have hd : s.data ++ t.data = ([] : List Char) := by
    have he : (s ++ t).data = s.data ++ t.data := rfl
    rw [← he, hc]
  rcases List.append_eq_nil.mp hd with ⟨hs, _⟩
  cases s with
  | mk d =>
    cases hs
    rfl

/-- The formatter's output always begins with the header line, hence is
never empty. -/
lemma format_forecast_text_ne_empty (p : String) (fj : ForecastJson) :
    format_forecast_text p fj ≠ "" := by
  have hw : ("Weather forecast for " : String) ≠ "" := by decide
  have hh : ("Weather forecast for " ++ p ++ ":\n") ≠ "" :=
    append_ne_empty_of_left _ _ (append_ne_empty_of_left _ _ hw)
  simp only [format_forecast_text]
  cases forecast_day_lines (fj.daily.getD DailyJson.empty) with
  | nil => simpa [py_join] using hh
  | cons y ys =>
    simp only [py_join]
    exact append_ne_empty_of_left _ _ (append_ne_empty_of_left _ _ hh)

/-- If the summarizer returns the empty string, the response was a decoded
body whose inspection produced the empty (stripped) generated text. -/
lemma hf_summarize_empty_imp (text model : String) (ht et : Option String)
    (resp : Except PyErr Json) (h : hf_summarize text model ht et resp = "") :
    ∃ data, resp = Except.ok data ∧ parse_hf_response data = Except.ok "" := by
  have hfw : ("(Hugging Face summarization failed: " : String) ≠ "" := by decide
  have hsw : ("(Hugging Face token not provided; summarization skipped)\n\n" : String) ≠ "" :=
    by decide
  cases resp with
  | error e =>
    unfold hf_summarize at h
    by_cases htok : truthy (py_or ht et) = true
    · simp only [htok, not_true_eq_false, if_false, Bool.false_eq_true] at h
      have hne : ("(Hugging Face summarization failed: " ++ e.msg ++ ")\n\n" ++
          py_take 2000 text) ≠ "" :=
        append_ne_empty_of_left _ _ (append_ne_empty_of_left _ _
          (append_ne_empty_of_left _ _ hfw))
      exact absurd h hne
    · simp [htok] at h
      exact absurd h (append_ne_empty_of_left _ _ hsw)
  | ok data =>
    unfold hf_summarize at h
    by_cases htok : truthy (py_or ht et) = true
    · simp only [htok, not_true_eq_false, if_false, Bool.false_eq_true] at h
      cases hp : parse_hf_response data with
      | error e =>
        rw [hp] at h
        have hne : ("(Hugging Face summarization failed: " ++ e.msg ++ ")\n\n" ++
            py_take 2000 text) ≠ "" :=
          append_ne_empty_of_left _ _ (append_ne_empty_of_left _ _
            (append_ne_empty_of_left _ _ hfw))
        exact absurd h hne
      | ok s =>
        rw [hp] at h
        have hs : s = "" := h
        exact ⟨data, rfl, by rw [hp, hs]⟩
    · simp [htok] at h
      exact absurd h (append_ne_empty_of_left _ _ hsw)

/-- C2: for every empty or whitespace-only place input, the orchestrator
returns the fixed guidance message with the empty auxiliary dict, whatever
the behavior of the geocoding, forecast and summarization endpoints (the
environment is universally quantified, so no network call influences the
result). -/
theorem empty_place_guidance :
    ∀ (env : WebEnv) (place : String) (days : Int) (use_hf : Bool),
      py_strip_str place = "" →
      get_forecast_for_place env place days use_hf =
        ("Please enter a location (e.g., 'Rahim Yar Khan, Pakistan').", ForecastJson.empty) := by
  intro env place days use_hf h
  unfold get_forecast_for_place
  simp [h]

/-- Witness for C2: whitespace-only input yields the guidance message. -/
theorem empty_place_guidance_witness :
    py_strip_str " \t\n" = "" ∧
    get_forecast_for_place successEnv " \t\n" 7 true =
      ("Please enter a location (e.g., 'Rahim Yar Khan, Pakistan').", ForecastJson.empty) :=
  ⟨rfl, empty_place_guidance successEnv " \t\n" 7 true rfl⟩

/-- C8: on every successful run (non-empty input, geocoding hit, forecast
fetched) the structure returned alongside the text is exactly the structure
received from the forecast fetch, unmodified. -/
theorem raw_forecast_passthrough :
    ∀ (env : WebEnv) (place : String) (days : Int) (use_hf : Bool)
      (geo : GeoResult) (fj : ForecastJson),
      py_strip_str place ≠ "" →
      geocode_place env.geocode_resp = Except.ok (some geo) →
      env.forecast_resp = Except.ok fj →
      (get_forecast_for_place env place days use_hf).2 = fj := by
  intro env place days use_hf geo fj h1 h2 h3
  unfold get_forecast_for_place fetch_open_meteo
  simp [h1, h2, h3]

/-- Witness for C8: the sample forecast body comes back untouched. -/
theorem raw_forecast_passthrough_witness :
    py_strip_str "Lahore, Pakistan" ≠ "" ∧
    geocode_place successEnv.geocode_resp = Except.ok (some sampleGeo) ∧
    successEnv.forecast_resp = Except.ok sampleForecast ∧
    (get_forecast_for_place successEnv "Lahore, Pakistan" 3 false).2 = sampleForecast :=
  ⟨by decide, rfl, rfl,
   raw_forecast_passthrough successEnv "Lahore, Pakistan" 3 false sampleGeo sampleForecast
     (by decide) rfl rfl⟩

/-- C10: when summarization is not requested, the text returned on a
successful run is exactly the formatter's output — the summarizer and its
endpoint play no part, even when a credential is present in the
environment (the environment, including the token and the summarization
endpoint's behavior, is universally quantified). -/
theorem no_summarization_when_disabled :
    ∀ (env : WebEnv) (place : String) (days : Int) (geo : GeoResult) (fj : ForecastJson),
      py_strip_str place ≠ "" →
      geocode_place env.geocode_resp = Except.ok (some geo) →
      env.forecast_resp = Except.ok fj →
      (get_forecast_for_place env place days false).1 =
        format_forecast_text (pyOptStr geo.name ++ ", " ++ pyOptStr geo.country) fj := by
  intro env place days geo fj h1 h2 h3
  unfold get_forecast_for_place fetch_open_meteo
  simp [h1, h2, h3]

/-- Witness for C10: with a credential present but the toggle off, the text
is the formatter's output. -/
theorem no_summarization_when_disabled_witness :
    py_strip_str "Lahore, Pakistan" ≠ "" ∧
    (get_forecast_for_place successEnv "Lahore, Pakistan" 3 false).1 =
      format_forecast_text (pyOptStr sampleGeo.name ++ ", " ++ pyOptStr sampleGeo.country)
        sampleForecast :=
  ⟨by decide,
   no_summarization_when_disabled successEnv "Lahore, Pakistan" 3 sampleGeo sampleForecast
     (by decide) rfl rfl⟩

/-- C9 counterexample: with a credential set, summarization enabled, and the
endpoint answering the bare string "  ", the pipeline's text half is the
empty string — the claim that it is always non-empty fails. -/
theorem summary_always_nonempty_counterexample :
    (get_forecast_for_place emptyGenEnv "Lahore, Pakistan" 3 true).1 = "" := rfl

/-- C9 amended: the pipeline's text half can only be empty when summarization
was requested, a credential was present, and the summarization endpoint's
decoded body parsed to an empty stripped generated text; every fallback and
raw rendering is non-empty. -/
theorem summary_empty_only_from_empty_generation :
    ∀ (env : WebEnv) (place : String) (days : Int) (use_hf : Bool),
      (get_forecast_for_place env place days use_hf).1 = "" →
      use_hf = true ∧ truthy env.hf_api_token = true ∧
      ∃ data, env.hf_resp = Except.ok data ∧ parse_hf_response data = Except.ok "" := by
  intro env place days use_hf h
  obtain ⟨tok, georesp, fresp, hfresp⟩ := env
  by_cases hp : py_strip_str place = ""
  · unfold get_forecast_for_place at h
    simp [hp] at h
  · cases georesp with
    | error e =>
      unfold get_forecast_for_place at h
      simp [hp, geocode_place] at h
      exact absurd h (append_ne_empty_of_left _ _ (by decide))
    | ok body =>
      obtain ⟨results⟩ := body
      cases results with
      | nil =>
        unfold get_forecast_for_place at h
        simp [hp, geocode_place] at h
        exact absurd h (append_ne_empty_of_left _ _ (by decide))
      | cons g gs =>
        cases fresp with
        | error e =>
          unfold get_forecast_for_place at h
          simp [hp, geocode_place, fetch_open_meteo] at h
          exact absurd h (append_ne_empty_of_left _ _
            (append_ne_empty_of_left _ _ (append_ne_empty_of_left _ _ (by decide))))
        | ok fj =>
          unfold get_forecast_for_place at h
          simp only [hp, geocode_place, fetch_open_meteo, if_neg] at h
          cases use_hf with
          | false =>
            simp only [Bool.false_and, if_false, Bool.false_eq_true] at h
            exact absurd h (format_forecast_text_ne_empty _ _)
          | true =>
            cases htk : truthy tok with
            | false =>
              simp [htk] at h
              exact absurd h (append_ne_empty_of_left _ _ (by decide))
            | true =>
              simp [htk] at h
              obtain ⟨data, hd, hparse⟩ := hf_summarize_empty_imp _ _ _ _ _ h
              exact ⟨rfl, by simp [htk], data, hd, hparse⟩

/-- Witness for C9: the amended theorem applied at the environment whose
endpoint generates whitespace-only text. -/
theorem summary_empty_only_from_empty_generation_witness :
    true = true ∧ truthy emptyGenEnv.hf_api_token = true ∧
    ∃ data, emptyGenEnv.hf_resp = Except.ok data ∧ parse_hf_response data = Except.ok "" :=
  summary_empty_only_from_empty_generation emptyGenEnv "Lahore, Pakistan" 3 true rfl
